import Mathlib

/-!
# Verification of `perfkitbenchmarker/providers/gcp/gce_disk.py`

A shallow embedding of the GCE disk lifecycle controller (`GceDisk`) and the
pieces of its environment it touches.  Pure command construction becomes Lean
functions producing a `Cmd` value; the stateful lifecycle methods become
explicit state-passing functions on the `GceDisk` record; the process-global
`DISK_METADATA` table is threaded explicitly because the constructor mutates
it; CLI outcomes (`stdout`, `stderr`, exit code, rate-limit flag) are inputs
supplied by the environment; Python exceptions become an `Except` result.

External collaborators that live outside the analysed file
(`util.GcloudCommand`, `util.GetRegionFromZone`, `json.loads`, the default
tag formatter) are modelled from the spec where needed and are marked as such
in their doc comments.
-/

namespace GceDiskModel

/-! ## Constants from `perfkitbenchmarker.disk` (supertype module)

Modelled from the spec: the abstract-kind and metadata-key constants of the
generic disk module are plain process-wide strings.  Their exact spellings are
irrelevant to every claim; only their identities matter. -/

namespace disk

def STANDARD : String := "standard"
def REMOTE_SSD : String := "remote_ssd"
def LOCAL : String := "local"
def MEDIA : String := "media"
def REPLICATION : String := "replication"
def HDD : String := "hdd"
def SSD : String := "ssd"
def ZONE : String := "zone"
def REGION : String := "region"
def NONE : String := "none"

end disk

/-! ## Constants of `gce_disk.py` -/

def PD_STANDARD : String := "pd-standard"
def PD_SSD : String := "pd-ssd"
def PD_BALANCED : String := "pd-balanced"
def PD_EXTREME : String := "pd-extreme"

def DISK_TYPE : List (String × String) :=
  [(disk.STANDARD, PD_STANDARD), (disk.REMOTE_SSD, PD_SSD)]

def REGIONAL_DISK_SCOPE : String := "regional"

def SCSI : String := "SCSI"
def NVME : String := "NVME"

/-- The process-global `DISK_METADATA` table: concrete disk type →
metadata template (a `dict` in the source; an association list here).
The constructor of `GceDisk` mutates the inner dicts in place, so the table
is threaded through `initDisk` as explicit state. -/
def DISK_METADATA : List (String × List (String × String)) :=
  [ (PD_STANDARD, [(disk.MEDIA, disk.HDD), (disk.REPLICATION, disk.ZONE)]),
    (PD_BALANCED, [(disk.MEDIA, disk.SSD), (disk.REPLICATION, disk.ZONE)]),
    (PD_SSD, [(disk.MEDIA, disk.SSD), (disk.REPLICATION, disk.ZONE)]),
    (PD_EXTREME, [(disk.MEDIA, disk.SSD), (disk.REPLICATION, disk.ZONE)]),
    (disk.LOCAL, [(disk.MEDIA, disk.SSD), (disk.REPLICATION, disk.NONE)]) ]

/-! ## Generic helpers (Python dict / string semantics) -/

/-- `d[k] = v` on a Python dict kept as an association list: update in place
if the key is present (keeping its position), append otherwise. -/
def assocSet {α : Type} (k : String) (v : α) : List (String × α) → List (String × α)
  | [] => [(k, v)]
  | (k', v') :: rest =>
    if k' == k then (k, v) :: rest else (k', v') :: assocSet k v rest

/-- `del d[k]` on a Python dict kept as an association list. -/
def assocDel {α : Type} (k : String) : List (String × α) → List (String × α)
  | [] => []
  | (k', v') :: rest =>
    if k' == k then rest else (k', v') :: assocDel k rest

/-- Does `l` start with `p`? (character-list version) -/
def charsStartWith : List Char → List Char → Bool
  | [], _ => true
  | _ :: _, [] => false
  | p :: ps, c :: cs => p == c && charsStartWith ps cs

/-- Does `l` contain `pat` as a contiguous run? (character-list version) -/
def charsContain (pat : List Char) : List Char → Bool
  | [] => charsStartWith pat []
  | c :: cs => charsStartWith pat (c :: cs) || charsContain pat cs

/-- Python's `pat in s` substring test. -/
def strContains (s pat : String) : Bool := charsContain pat.toList s.toList

/-- Python's `sep.join(parts)`. -/
def joinWith (sep : String) : List String → String
  | [] => ""
  | [s] => s
  | s :: rest => s ++ sep ++ joinWith sep rest

/-- Split a character list at every occurrence of `c`. -/
def splitOnChar (c : Char) : List Char → List (List Char)
  | [] => [[]]
  | x :: xs =>
    let rest := splitOnChar c xs
    if x == c then [] :: rest
    else match rest with
      | [] => [[x]]
      | r :: rs => (x :: r) :: rs

/-- Modelled from the spec: `util.GetRegionFromZone` lives outside the
analysed file; the spec defines the region as "the zone string with its
trailing zone-suffix removed", i.e. the final hyphen-separated component is
dropped. -/
def GetRegionFromZone (zone : String) : String :=
  joinWith "-" (((splitOnChar '-' zone.toList).dropLast).map (fun l => String.mk l))

/-! ## The command collaborator -/

/-- A flag value of a gcloud command (the source stores strings, ints and
joined lists in `cmd.flags`). -/
inductive FlagVal where
  | str (s : String)
  | num (n : Int)
  deriving DecidableEq, Repr

def FlagVal.render : FlagVal → String
  | FlagVal.str s => s
  | FlagVal.num n => toString n

/-- A mutable flag-set command object, as produced by the external
CommandBuilder collaborator (`util.GcloudCommand`). -/
structure Cmd where
  args : List String
  flags : List (String × FlagVal)
  deriving DecidableEq, Repr

def Cmd.setFlag (c : Cmd) (k : String) (v : FlagVal) : Cmd :=
  { c with flags := assocSet k v c.flags }

def Cmd.delFlag (c : Cmd) (k : String) : Cmd :=
  { c with flags := assocDel k c.flags }

/-- Modelled from the spec: the external CommandBuilder, "given a resource and
an operation verb, returns a mutable flag-set command object"; it seeds the
flag set with the resource's project and — implicitly, later removable — its
zone (§6 lists the zone flag as "implicit/removed", and the source deletes it
with `del cmd.flags[zone]`, so it must be present by default). -/
def GcloudCommandFlags (project zone : String) : List (String × FlagVal) :=
  [("project", FlagVal.str project), ("zone", FlagVal.str zone)]

/-- Modelled from the spec: `cmd.GetCommand()` renders the full command line
of the external CLI tool. -/
def Cmd.GetCommand (c : Cmd) : List String :=
  "gcloud" :: c.args ++ c.flags.map (fun p => "--" ++ p.1 ++ "=" ++ p.2.render)

/-- The three-tuple outcome of issuing a command, plus the builder's
rate-limit marker (`cmd.rate_limited` after `Issue`); supplied by the
environment. -/
structure CmdResult where
  stdout : String
  stderr : String
  retcode : Int
  rate_limited : Bool
  deriving DecidableEq, Repr

/-! ## Global configuration (`FLAGS`) -/

/-- The read-only global configuration consumed by the module. -/
structure GlobalFlags where
  gcp_provisioned_iops : Int
  gce_ssd_interface : String
  retry_on_rate_limited : Bool
  deriving DecidableEq, Repr

/-! ## Python values and errors -/

/-- Structured JSON data, as returned by `json.loads`. -/
inductive JValue where
  | jnull
  | jbool (b : Bool)
  | jnum (n : Int)
  | jstr (s : String)
  | jarr (xs : List JValue)
  | jobj (kvs : List (String × JValue))

/-- Python truthiness `bool(v)` on a parsed JSON value. -/
def JValue.toBool : JValue → Bool
  | JValue.jnull => false
  | JValue.jbool b => b
  | JValue.jnum n => n != 0
  | JValue.jstr s => s != ""
  | JValue.jarr [] => false
  | JValue.jarr (_ :: _) => true
  | JValue.jobj [] => false
  | JValue.jobj (_ :: _) => true

/-- The Python exceptions the modelled code can raise. -/
inductive PyError where
  | typeError
  | keyError
  | calledProcess (msg : String)
  deriving Repr

/-- Python `v[key]` subscripting on an optional parsed value: `None[key]` and
subscripting a non-dict raise `TypeError`; a dict without the key raises
`KeyError`. -/
def pySubscript (o : Option JValue) (key : String) : Except PyError JValue :=
  match o with
  | some (JValue.jobj kvs) =>
    match kvs.lookup key with
    | some v => Except.ok v
    | none => Except.error PyError.keyError
  | _ => Except.error PyError.typeError

/-- Python `v == s` where `s` is a string literal: exact string equality,
`False` for every non-string value. -/
def pyEqStr (v : JValue) (s : String) : Bool :=
  match v with
  | JValue.jstr t => t == s
  | _ => false

/-- Python truthiness of an optional value (`None` is falsy). -/
def pyBool (o : Option JValue) : Bool :=
  match o with
  | none => false
  | some v => v.toBool

/-- Python truthiness of an optional integer (`None` and `0` are falsy). -/
def intTruthy (o : Option Int) : Bool :=
  match o with
  | none => false
  | some n => n != 0

/-! ## The disk entity -/

/-- A metadata annotation value (`self.metadata` holds strings, the
replica-zone list and the provisioned-IOPS integer). -/
inductive MetaVal where
  | str (s : String)
  | strList (l : List String)
  | num (n : Int)
  deriving DecidableEq, Repr

/-- The `GceDisk` object.  `replica_zones = []` stands for both Python `None`
and an empty list (they are indistinguishable to every use site, all of which
test truthiness). -/
structure GceDisk where
  disk_type : String
  disk_size : Nat
  attached_vm_name : Option String
  image : Option String
  image_project : Option String
  name : String
  zone : String
  project : String
  replica_zones : List String
  region : String
  provisioned_iops : Option Int
  metadata : List (String × MetaVal)
  deriving DecidableEq, Repr

/-- `GceDisk.__init__`.  Takes the current process-global `DISK_METADATA`
table and returns the constructed disk together with the table afterwards:
the source aliases `disk_metadata = DISK_METADATA[disk_spec.disk_type]` and,
when `replica_zones` is truthy, assigns through the alias
(`disk_metadata[disk.REPLICATION] = disk.REGION`), mutating the shared table.
Returns `none` when the disk type is not in the table (Python `KeyError`). -/
def initDisk (FLAGS : GlobalFlags) (table : List (String × List (String × String)))
    (disk_type : String) (disk_size : Nat)
    (name zone project : String) (image image_project : Option String)
    (replica_zones : List String) :
    Option (GceDisk × List (String × List (String × String))) :=
  match table.lookup disk_type with
  | none => none
  | some _ =>
    let region := GetRegionFromZone zone
    let provisioned_iops : Option Int :=
      if disk_type == PD_EXTREME then some FLAGS.gcp_provisioned_iops else none
    let table1 :=
      if replica_zones ≠ [] then
        assocSet disk_type
          (assocSet disk.REPLICATION disk.REGION ((table.lookup disk_type).getD []))
          table
      else table
    let md0 : List (String × MetaVal) :=
      if replica_zones ≠ [] then [("replica_zones", MetaVal.strList replica_zones)]
      else []
    let md1 := ((table1.lookup disk_type).getD []).foldl
      (fun m kv => assocSet kv.1 (MetaVal.str kv.2) m) md0
    let md2 :=
      if disk_type == disk.LOCAL then
        assocSet "interface" (MetaVal.str FLAGS.gce_ssd_interface) md1
      else md1
    let md3 :=
      if intTruthy provisioned_iops && (disk_type == PD_EXTREME) then
        assocSet "provisioned_iops" (MetaVal.num (provisioned_iops.getD 0)) md2
      else md2
    some ({ disk_type := disk_type, disk_size := disk_size,
            attached_vm_name := none, image := image,
            image_project := image_project, name := name, zone := zone,
            project := project, replica_zones := replica_zones,
            region := region, provisioned_iops := provisioned_iops,
            metadata := md3 }, table1)

/-- `util.GcloudCommand(self, *args)` applied to a disk resource. -/
def GceDisk.gcloudCommand (d : GceDisk) (args : List String) : Cmd :=
  { args := args, flags := GcloudCommandFlags d.project d.zone }

/-- Render `self.attached_vm_name` as a command argument (always set on the
paths that build such a command; Python would render `None` as the string
"None"). -/
def pyStrOpt : Option String → String
  | some s => s
  | none => "None"

/-! ## Lifecycle command construction -/

/-- The command built by `_Create` (`tags` stands for the external
`util.MakeFormattedDefaultTags()` result). -/
def GceDisk.createCmd (d : GceDisk) (tags : String) : Cmd :=
  let cmd := d.gcloudCommand ["compute", "disks", "create", d.name]
  let cmd := cmd.setFlag "size" (FlagVal.num d.disk_size)
  let cmd := cmd.setFlag "type" (FlagVal.str d.disk_type)
  let cmd :=
    if intTruthy d.provisioned_iops && (d.disk_type == PD_EXTREME) then
      cmd.setFlag "provisioned-iops" (FlagVal.num (d.provisioned_iops.getD 0))
    else cmd
  let cmd := cmd.setFlag "labels" (FlagVal.str tags)
  let cmd :=
    match d.image with
    | some img => cmd.setFlag "image" (FlagVal.str img)
    | none => cmd
  let cmd :=
    match d.image_project with
    | some ip => cmd.setFlag "image-project" (FlagVal.str ip)
    | none => cmd
  if d.replica_zones ≠ [] then
    let cmd := cmd.setFlag "region" (FlagVal.str d.region)
    let cmd := cmd.setFlag "replica-zones" (FlagVal.str (joinWith "," d.replica_zones))
    cmd.delFlag "zone"
  else cmd

/-- The command built by `_Delete`. -/
def GceDisk.deleteCmd (d : GceDisk) : Cmd :=
  let cmd := d.gcloudCommand ["compute", "disks", "delete", d.name]
  if d.replica_zones ≠ [] then
    (cmd.setFlag "region" (FlagVal.str d.region)).delFlag "zone"
  else cmd

/-- The command built by `_Describe`. -/
def GceDisk.describeCmd (d : GceDisk) : Cmd :=
  let cmd := d.gcloudCommand ["compute", "disks", "describe", d.name]
  if d.replica_zones ≠ [] then
    (cmd.setFlag "region" (FlagVal.str d.region)).delFlag "zone"
  else cmd

/-- The command built by `Attach` (after `attached_vm_name` has been set). -/
def GceDisk.attachCmd (d : GceDisk) : Cmd :=
  let cmd := d.gcloudCommand
    ["compute", "instances", "attach-disk", pyStrOpt d.attached_vm_name]
  let cmd := cmd.setFlag "device-name" (FlagVal.str d.name)
  let cmd := cmd.setFlag "disk" (FlagVal.str d.name)
  if d.replica_zones ≠ [] then
    cmd.setFlag "disk-scope" (FlagVal.str REGIONAL_DISK_SCOPE)
  else cmd

/-- The command built by `Detach`. -/
def GceDisk.detachCmd (d : GceDisk) : Cmd :=
  let cmd := d.gcloudCommand
    ["compute", "instances", "detach-disk", pyStrOpt d.attached_vm_name]
  let cmd := cmd.setFlag "device-name" (FlagVal.str d.name)
  if d.replica_zones ≠ [] then
    cmd.setFlag "disk-scope" (FlagVal.str REGIONAL_DISK_SCOPE)
  else cmd

/-! ## Result interpretation -/

/-- The `try: json.loads(stdout) except ValueError: return None` tail of
`_Describe`.  `loads` abstracts the external `json.loads`, returning `none`
exactly when it raises `ValueError` (non-JSON stdout).  The exit code and
stderr of the command are discarded by the source (`stdout, _, _ = ...`). -/
def describeResult (loads : String → Option JValue) (res : CmdResult) :
    Option JValue :=
  loads res.stdout

/-- `_Ready`: `return self._Describe()['status'] == 'READY'`. -/
def GceDisk_Ready (loads : String → Option JValue) (res : CmdResult) :
    Except PyError Bool :=
  match pySubscript (describeResult loads res) "status" with
  | Except.ok v => Except.ok (pyEqStr v "READY")
  | Except.error e => Except.error e

/-- `_Exists`: `return bool(self._Describe())`. -/
def GceDisk_Exists (loads : String → Option JValue) (res : CmdResult) : Bool :=
  pyBool (describeResult loads res)

/-- The `debug_text` string interpolated into the `Attach` failure message. -/
def debugText (cmd : Cmd) (res : CmdResult) : String :=
  "Ran: \x7b" ++ joinWith " " cmd.GetCommand ++ "\x7d\nReturnCode:" ++
    toString res.retcode ++ "\nSTDOUT: " ++ res.stdout ++ "\nSTDERR: " ++
    res.stderr

/-- One invocation of `Attach(vm)` (the body inside the external
`@vm_util.Retry()` decorator).  `res` is the environment-supplied outcome of
issuing the attach command.  Returns the post-state and either normal return
or the raised exception. -/
def GceDisk.Attach (FLAGS : GlobalFlags) (d : GceDisk) (vmName : String)
    (res : CmdResult) : GceDisk × Except PyError Unit :=
  let d := { d with attached_vm_name := some vmName }
  if res.retcode ≠ 0 then
    if res.rate_limited && strContains res.stderr "is already being used" &&
        FLAGS.retry_on_rate_limited then
      (d, Except.ok ())
    else
      (d, Except.error (PyError.calledProcess
        ("Command returned a non-zero exit code:\n" ++ debugText d.attachCmd res)))
  else (d, Except.ok ())

/-- `Detach()`.  `outcome` is the environment-supplied behaviour of the
external `cmd.IssueRetryable()` primitive: `ok` when it returns, `error` when
it ultimately raises.  `self.attached_vm_name = None` runs only after the
call returns. -/
def GceDisk.Detach (d : GceDisk) (outcome : Except PyError Unit) :
    GceDisk × Except PyError Unit :=
  match outcome with
  | Except.error e => (d, Except.error e)
  | Except.ok _ => ({ d with attached_vm_name := none }, Except.ok ())

/-- `GetDevicePath()`. -/
def GceDisk.GetDevicePath (FLAGS : GlobalFlags) (d : GceDisk) : String :=
  if d.disk_type == disk.LOCAL && FLAGS.gce_ssd_interface == NVME then
    "/dev/" ++ d.name
  else
    "/dev/disk/by-id/google-" ++ d.name

/-! ## Lifecycle traces (for the attachment-state invariant) -/

/-- One lifecycle operation on a single disk instance, with the
environment-chosen outcome of its external command. -/
inductive LifeOp where
  | createOp (res : CmdResult)
  | deleteOp (res : CmdResult)
  | attachOp (vm : String) (res : CmdResult)
  | detachOp (outcome : Except PyError Unit)

/-- The in-memory state transition of one lifecycle operation.  `_Create` and
`_Delete` do not touch `attached_vm_name` (or any other field). -/
def stepOp (FLAGS : GlobalFlags) (d : GceDisk) : LifeOp → GceDisk
  | LifeOp.createOp _ => d
  | LifeOp.deleteOp _ => d
  | LifeOp.attachOp vm res => (GceDisk.Attach FLAGS d vm res).1
  | LifeOp.detachOp outcome => (GceDisk.Detach d outcome).1

/-- Run a sequence of lifecycle operations. -/
def runOps (FLAGS : GlobalFlags) (d : GceDisk) : List LifeOp → GceDisk
  | [] => d
  | op :: rest => runOps FLAGS (stepOp FLAGS d op) rest

/-- The attachment state a trace ends in, computed independently of the
implementation: every Attach invocation records its target, a completed
Detach clears it, everything else leaves it alone. -/
def expectedAttached (init : Option String) : List LifeOp → Option String
  | [] => init
  | LifeOp.attachOp vm _ :: rest => expectedAttached (some vm) rest
  | LifeOp.detachOp (Except.ok _) :: rest => expectedAttached none rest
  | _ :: rest => expectedAttached init rest

end GceDiskModel

namespace GceDiskModel

/-! ## Concrete fixtures used by witnesses and counterexamples -/

/-- A concrete global configuration (defaults of the real flags). -/
def FLAGS0 : GlobalFlags :=
  { gcp_provisioned_iops := 100000, gce_ssd_interface := "SCSI",
    retry_on_rate_limited := true }

/-- A concrete zonal standard disk. -/
def diskEx : GceDisk :=
  { disk_type := PD_STANDARD, disk_size := 500, attached_vm_name := none,
    image := none, image_project := none, name := "d1",
    zone := "us-central1-a", project := "proj",
    replica_zones := [], region := "us-central1",
    provisioned_iops := none,
    metadata := [(disk.MEDIA, MetaVal.str disk.HDD),
                 (disk.REPLICATION, MetaVal.str disk.ZONE)] }

/-- A successful command outcome. -/
def resOK : CmdResult :=
  { stdout := "", stderr := "", retcode := 0, rate_limited := false }

/-- A rate-limited attach failure whose stderr carries the benign marker. -/
def resRate : CmdResult :=
  { stdout := "", stderr := "ERROR: disk is already being used by vm",
    retcode := 1, rate_limited := true }

/-- A plain failure (not rate limited). -/
def resFail : CmdResult :=
  { stdout := "out", stderr := "ERROR: disk is already being used by vm",
    retcode := 1, rate_limited := false }

/-- A parse function standing for `json.loads` on the fixture outputs. -/
def loadsEx : String → Option JValue := fun s =>
  if s == "ready" then some (JValue.jobj [("status", JValue.jstr "READY")])
  else none

/-- A describe outcome whose stdout parses under `loadsEx`. -/
def resReady : CmdResult :=
  { stdout := "ready", stderr := "", retcode := 0, rate_limited := false }

/-- A describe outcome with non-JSON stdout and a non-zero exit code. -/
def resGarbage : CmdResult :=
  { stdout := "ERROR: not found", stderr := "boom", retcode := 1,
    rate_limited := false }

/-! ## Claim theorems -/

/-- C5: `Detach` clears `attached_vm_name` only after the retryable command
call returns: when the retry primitive ultimately raises, the error
propagates and `attached_vm_name` keeps its prior value; when the call
returns, `attached_vm_name` is cleared to `None` and `Detach` returns
normally. -/
theorem gce_C5_detach_clears_after_return (d : GceDisk) :
    (∀ e, GceDisk.Detach d (Except.error e) = (d, Except.error e))
    ∧ (GceDisk.Detach d (Except.ok ())).1.attached_vm_name = none
    ∧ (GceDisk.Detach d (Except.ok ())).2 = Except.ok () :=
  ⟨fun _ => rfl, rfl, rfl⟩

/-- The two device-path templates can never collide (their fixed parts have
different lengths). -/
theorem devicePathTemplatesNe (n : String) :
    "/dev/disk/by-id/google-" ++ n ≠ "/dev/" ++ n := by
  intro h
  have h2 := congrArg String.length h
  simp only [String.length_append] at h2
  have h3 : ("/dev/disk/by-id/google-" : String).length = 23 := by decide
  have h5 : ("/dev/" : String).length = 5 := by decide
  omega

/-- C7: `GetDevicePath` is a pure function of the disk kind, the disk name
and the global interface selection; it returns `/dev/<name>` exactly when the
kind is local-ephemeral and the configured interface is NVMe, and in every
other combination returns `/dev/disk/by-id/google-<name>`. -/
theorem gce_C7_device_path (FLAGS : GlobalFlags) (d : GceDisk) :
    (GceDisk.GetDevicePath FLAGS d = "/dev/" ++ d.name ↔
      (d.disk_type = disk.LOCAL ∧ FLAGS.gce_ssd_interface = NVME))
    ∧ (¬(d.disk_type = disk.LOCAL ∧ FLAGS.gce_ssd_interface = NVME) →
        GceDisk.GetDevicePath FLAGS d = "/dev/disk/by-id/google-" ++ d.name)
    ∧ (∀ (F2 : GlobalFlags) (d2 : GceDisk), d.disk_type = d2.disk_type →
        d.name = d2.name → FLAGS.gce_ssd_interface = F2.gce_ssd_interface →
        GceDisk.GetDevicePath FLAGS d = GceDisk.GetDevicePath F2 d2) := by
  unfold GceDisk.GetDevicePath
  by_cases hc : d.disk_type = disk.LOCAL ∧ FLAGS.gce_ssd_interface = NVME
  · have hb : (d.disk_type == disk.LOCAL && FLAGS.gce_ssd_interface == NVME) = true := by
      simp [hc.1, hc.2]
    refine ⟨?_, ?_, ?_⟩
    · simp [hb, hc]
    · intro hn; exact absurd hc hn
    · intro F2 d2 h1 h2 h3
      have hb2 : (d2.disk_type == disk.LOCAL && F2.gce_ssd_interface == NVME) = true := by
        simp [← h1, ← h3, hc.1, hc.2]
      simp [hb, hb2, h2]
  · have hb : (d.disk_type == disk.LOCAL && FLAGS.gce_ssd_interface == NVME) = false := by
      rcases Decidable.not_and_iff_or_not.mp hc with h | h <;> simp [h]
    refine ⟨?_, ?_, ?_⟩
    · simp only [hb, Bool.false_eq_true, if_false]
      constructor
      · intro h; exact absurd h (devicePathTemplatesNe d.name)
      · intro h; exact absurd h hc
    · intro _; simp [hb]
    · intro F2 d2 h1 h2 h3
      have hb2 : (d2.disk_type == disk.LOCAL && F2.gce_ssd_interface == NVME) = false := by
        rw [← h1, ← h3]; exact hb
      simp [hb, hb2, h2]

/-- Witness for C7 at a concrete disk: the fixture is non-local, so the
by-id template applies. -/
theorem gce_C7_device_path_witness :
    GceDisk.GetDevicePath FLAGS0 diskEx = "/dev/disk/by-id/google-d1" :=
  (gce_C7_device_path FLAGS0 diskEx).2.1 (by decide)

/-- C1: one invocation of `Attach(vm)` sets `attached_vm_name` to the VM name
before the attach command is issued (the issued command already names the
VM), and it still equals the VM name in every outcome; `Attach` returns
normally on exit code 0, absorbs the failure when the exit code is non-zero
and the command was rate-limited and stderr contains "is already being used"
and the global retry-on-rate-limited switch is on, and otherwise raises a
command-failure error embedding the command line, exit code, stdout and
stderr. -/
theorem gce_C1_attach_behavior (FLAGS : GlobalFlags) (d : GceDisk)
    (vmName : String) (res : CmdResult) :
    ((GceDisk.Attach FLAGS d vmName res).1.attached_vm_name = some vmName)
    ∧ ((GceDisk.Attach FLAGS d vmName res).1.attachCmd.args =
        ["compute", "instances", "attach-disk", vmName])
    ∧ (res.retcode = 0 → (GceDisk.Attach FLAGS d vmName res).2 = Except.ok ())
    ∧ (res.retcode ≠ 0 →
        (res.rate_limited && strContains res.stderr "is already being used" &&
          FLAGS.retry_on_rate_limited) = true →
        (GceDisk.Attach FLAGS d vmName res).2 = Except.ok ())
    ∧ (res.retcode ≠ 0 →
        (res.rate_limited && strContains res.stderr "is already being used" &&
          FLAGS.retry_on_rate_limited) = false →
        (GceDisk.Attach FLAGS d vmName res).2 = Except.error
          (PyError.calledProcess ("Command returned a non-zero exit code:\n" ++
            debugText
              ({ d with attached_vm_name := some vmName } : GceDisk).attachCmd
              res))) := by
  unfold GceDisk.Attach
  by_cases h0 : res.retcode = 0
  · simp [h0, GceDisk.attachCmd, GceDisk.gcloudCommand, Cmd.setFlag]
    split <;> rfl
  · by_cases hb : (res.rate_limited &&
        strContains res.stderr "is already being used" &&
        FLAGS.retry_on_rate_limited) = true
    · simp [h0, hb, GceDisk.attachCmd, GceDisk.gcloudCommand, Cmd.setFlag]
      split <;> rfl
    · rw [Bool.not_eq_true] at hb
      simp [h0, hb, GceDisk.attachCmd, GceDisk.gcloudCommand, Cmd.setFlag]
      split <;> rfl

/-- Witness for C1: at the concrete rate-limited fixture the failure is
absorbed, and the optimistic field assignment is visible. -/
theorem gce_C1_attach_behavior_witness :
    (GceDisk.Attach FLAGS0 diskEx "vm1" resRate).1.attached_vm_name = some "vm1"
    ∧ (GceDisk.Attach FLAGS0 diskEx "vm1" resRate).2 = Except.ok () :=
  ⟨(gce_C1_attach_behavior FLAGS0 diskEx "vm1" resRate).1,
   (gce_C1_attach_behavior FLAGS0 diskEx "vm1" resRate).2.2.2.1 (by decide)
     (by decide)⟩

/-- C3: `_Ready` returns true exactly when the parsed describe result is an
object whose `status` field is exactly the string "READY" (case-sensitive, no
trimming); when `_Describe` returns `None`, `_Ready` raises a `TypeError`
(indexing a missing result) instead of returning false. -/
theorem gce_C3_ready_status (loads : String → Option JValue) (res : CmdResult) :
    (GceDisk_Ready loads res = Except.ok true ↔
      ∃ kvs, loads res.stdout = some (JValue.jobj kvs) ∧
        kvs.lookup "status" = some (JValue.jstr "READY"))
    ∧ (loads res.stdout = none →
        GceDisk_Ready loads res = Except.error PyError.typeError) := by
  unfold GceDisk_Ready describeResult pySubscript
  constructor
  · generalize loads res.stdout = o
    cases o with
    | none => simp
    | some v =>
      cases v with
      | jnull => simp
      | jbool b => simp
      | jnum n => simp
      | jstr s => simp
      | jarr xs => simp
      | jobj kvs =>
        cases hk : kvs.lookup "status" with
        | none => simp [hk]
        | some w => cases w <;> simp [hk, pyEqStr]
  · intro h
    rw [h]

/-- Witness for C3 at concrete fixtures: a READY describe output yields true,
and non-JSON stdout makes `_Ready` raise. -/
theorem gce_C3_ready_status_witness :
    GceDisk_Ready loadsEx resReady = Except.ok true
    ∧ GceDisk_Ready loadsEx resGarbage = Except.error PyError.typeError :=
  ⟨(gce_C3_ready_status loadsEx resReady).1.mpr
     ⟨[("status", JValue.jstr "READY")], rfl, rfl⟩,
   (gce_C3_ready_status loadsEx resGarbage).2 rfl⟩

/-- C4: `_Describe` returns `None` (without raising) exactly when the
command's stdout does not parse as JSON, and otherwise returns the parsed
value; `_Exists` is false whenever `_Describe` yields an unparsable response
and true whenever it yields a non-empty structured result, regardless of the
value of the `status` field. -/
theorem gce_C4_describe_parse_exists (loads : String → Option JValue)
    (res : CmdResult) :
    (describeResult loads res = none ↔ loads res.stdout = none)
    ∧ (∀ v, loads res.stdout = some v → describeResult loads res = some v)
    ∧ (describeResult loads res = none → GceDisk_Exists loads res = false)
    ∧ (∀ kvs, describeResult loads res = some (JValue.jobj kvs) → kvs ≠ [] →
        GceDisk_Exists loads res = true) := by
  refine ⟨Iff.rfl, fun v h => h, ?_, ?_⟩
  · intro h
    unfold GceDisk_Exists pyBool
    rw [h]
  · intro kvs h hne
    unfold GceDisk_Exists pyBool
    rw [h]
    cases kvs with
    | nil => exact absurd rfl hne
    | cons a l => rfl

/-- Witness for C4 at concrete fixtures: garbage stdout gives an absent
describe result and `_Exists` false; a parsed one-field object gives
`_Exists` true. -/
theorem gce_C4_describe_parse_exists_witness :
    describeResult loadsEx resGarbage = none
    ∧ GceDisk_Exists loadsEx resGarbage = false
    ∧ GceDisk_Exists loadsEx resReady = true :=
  ⟨rfl,
   (gce_C4_describe_parse_exists loadsEx resGarbage).2.2.1 rfl,
   (gce_C4_describe_parse_exists loadsEx resReady).2.2.2
     [("status", JValue.jstr "READY")] rfl (by simp)⟩

/-- C10: the value `_Describe` returns depends on the describe command's
stdout alone — stderr and the exit code are discarded — so a result whose
stdout parses is returned, and `_Exists` can be true, even when the command
exited non-zero. -/
theorem gce_C10_describe_ignores_retcode (loads : String → Option JValue)
    (r1 r2 : CmdResult) :
    (r1.stdout = r2.stdout → describeResult loads r1 = describeResult loads r2)
    ∧ (∀ v, r1.retcode ≠ 0 → loads r1.stdout = some v →
        describeResult loads r1 = some v ∧
        (v.toBool = true → GceDisk_Exists loads r1 = true)) := by
  refine ⟨?_, ?_⟩
  · intro h
    unfold describeResult
    rw [h]
  · intro v hrc hl
    refine ⟨hl, ?_⟩
    intro hb
    unfold GceDisk_Exists pyBool describeResult
    rw [hl]
    exact hb

/-- A parse function under which the failing fixture's stdout still parses
(a describe result carrying a non-READY status). -/
def loadsFailJson : String → Option JValue := fun s =>
  if s == "ERROR: not found" then
    some (JValue.jobj [("status", JValue.jstr "FAILED")])
  else none

/-- Witness for C10: a failing command (exit code 1) whose stdout still
parses under a concrete parse function yields a present describe result. -/
theorem gce_C10_describe_ignores_retcode_witness :
    describeResult loadsFailJson resGarbage =
      some (JValue.jobj [("status", JValue.jstr "FAILED")])
    ∧ GceDisk_Exists loadsFailJson resGarbage = true :=
  ⟨((gce_C10_describe_ignores_retcode loadsFailJson resGarbage resGarbage).2
      (JValue.jobj [("status", JValue.jstr "FAILED")]) (by decide) rfl).1,
   ((gce_C10_describe_ignores_retcode loadsFailJson resGarbage resGarbage).2
      (JValue.jobj [("status", JValue.jstr "FAILED")]) (by decide) rfl).2 rfl⟩

/-! ## Construction facts -/

/-- Field values of a successfully constructed disk. -/
theorem initDisk_fields (FLAGS : GlobalFlags)
    (table : List (String × List (String × String))) (dt : String) (sz : Nat)
    (name zone project : String) (image image_project : Option String)
    (rz : List String) (d : GceDisk)
    (t' : List (String × List (String × String)))
    (h : initDisk FLAGS table dt sz name zone project image image_project rz
      = some (d, t')) :
    d.disk_type = dt ∧ d.disk_size = sz ∧ d.attached_vm_name = none ∧
    d.name = name ∧ d.zone = zone ∧ d.project = project ∧
    d.replica_zones = rz ∧ d.region = GetRegionFromZone zone ∧
    d.image = image ∧ d.image_project = image_project ∧
    d.provisioned_iops =
      (if dt == PD_EXTREME then some FLAGS.gcp_provisioned_iops else none) := by
  unfold initDisk at h
  cases htab : table.lookup dt with
  | none => rw [htab] at h; exact absurd h (by simp)
  | some tmpl =>
    rw [htab] at h
    simp only [Option.some.injEq, Prod.mk.injEq] at h
    obtain ⟨hd, _⟩ := h
    subst hd
    simp

/-- Flags of the create command for a regional disk: zone dropped, region and
comma-joined replica-zones added. -/
theorem createCmd_flags_regional (d : GceDisk) (tags : String)
    (hrz : d.replica_zones ≠ []) :
    (d.createCmd tags).flags.lookup "zone" = none ∧
    (d.createCmd tags).flags.lookup "region" = some (FlagVal.str d.region) ∧
    (d.createCmd tags).flags.lookup "replica-zones" =
      some (FlagVal.str (joinWith "," d.replica_zones)) := by
  unfold GceDisk.createCmd GceDisk.gcloudCommand GcloudCommandFlags Cmd.setFlag
    Cmd.delFlag
  rcases him : d.image with _ | img <;> rcases hip : d.image_project with _ | ip <;>
    by_cases hb : (intTruthy d.provisioned_iops && (d.disk_type == PD_EXTREME)) = true <;>
    simp [him, hip, hb, hrz, assocSet, assocDel, List.lookup]

/-- Flags of the delete command for a regional disk. -/
theorem deleteCmd_flags_regional (d : GceDisk) (hrz : d.replica_zones ≠ []) :
    d.deleteCmd.flags.lookup "zone" = none ∧
    d.deleteCmd.flags.lookup "region" = some (FlagVal.str d.region) := by
  unfold GceDisk.deleteCmd GceDisk.gcloudCommand GcloudCommandFlags Cmd.setFlag
    Cmd.delFlag
  simp [hrz, assocSet, assocDel, List.lookup]

/-- Flags of the describe command for a regional disk. -/
theorem describeCmd_flags_regional (d : GceDisk) (hrz : d.replica_zones ≠ []) :
    d.describeCmd.flags.lookup "zone" = none ∧
    d.describeCmd.flags.lookup "region" = some (FlagVal.str d.region) := by
  unfold GceDisk.describeCmd GceDisk.gcloudCommand GcloudCommandFlags Cmd.setFlag
    Cmd.delFlag
  simp [hrz, assocSet, assocDel, List.lookup]

/-- Flags of the attach command for a regional disk: the zone flag is kept,
no region flag is added, and a disk-scope flag is added instead. -/
theorem attachCmd_flags_regional (d : GceDisk) (hrz : d.replica_zones ≠ []) :
    d.attachCmd.flags.lookup "zone" = some (FlagVal.str d.zone) ∧
    d.attachCmd.flags.lookup "region" = none ∧
    d.attachCmd.flags.lookup "disk-scope" =
      some (FlagVal.str REGIONAL_DISK_SCOPE) := by
  unfold GceDisk.attachCmd GceDisk.gcloudCommand GcloudCommandFlags Cmd.setFlag
  simp [hrz, assocSet, List.lookup]

/-- Flags of the detach command for a regional disk: the zone flag is kept,
no region flag is added, and a disk-scope flag is added instead. -/
theorem detachCmd_flags_regional (d : GceDisk) (hrz : d.replica_zones ≠ []) :
    d.detachCmd.flags.lookup "zone" = some (FlagVal.str d.zone) ∧
    d.detachCmd.flags.lookup "region" = none ∧
    d.detachCmd.flags.lookup "disk-scope" =
      some (FlagVal.str REGIONAL_DISK_SCOPE) := by
  unfold GceDisk.detachCmd GceDisk.gcloudCommand GcloudCommandFlags Cmd.setFlag
  simp [hrz, assocSet, List.lookup]

/-- Counterexample to C2 as stated: a concrete regional disk (non-empty
replica zones) whose attach-disk command still carries a zone flag and has no
region flag — the zone→region substitution is applied only to
create/delete/describe, while attach/detach add a disk-scope flag instead. -/
theorem gce_C2_counterexample :
    ((initDisk FLAGS0 DISK_METADATA PD_SSD 500 "dA" "us-central1-a" "proj"
        none none ["us-central1-a", "us-central1-b"]).map
      (fun p => (p.1.attachCmd.flags.lookup "zone",
                 p.1.attachCmd.flags.lookup "region",
                 p.1.detachCmd.flags.lookup "zone",
                 p.1.detachCmd.flags.lookup "region")))
    = some (some (FlagVal.str "us-central1-a"), none,
            some (FlagVal.str "us-central1-a"), none) := by
  decide

/-- C2 (amended): for every constructed disk with a non-empty replica_zones
list, the create, delete and describe commands omit the zone flag and carry a
region flag whose value is the zone string with its trailing zone suffix
removed (create additionally carries the comma-joined replica-zones flag);
the attach-disk and detach-disk commands instead keep the zone flag, carry no
region flag, and add a disk-scope flag set to "regional". -/
theorem gce_C2_regional_flags (FLAGS : GlobalFlags)
    (table : List (String × List (String × String))) (dt : String) (sz : Nat)
    (name zone project : String) (image image_project : Option String)
    (rz : List String) (d : GceDisk)
    (t' : List (String × List (String × String)))
    (h : initDisk FLAGS table dt sz name zone project image image_project rz
      = some (d, t'))
    (hrz : rz ≠ []) (tags : String) :
    ((d.createCmd tags).flags.lookup "zone" = none ∧
      (d.createCmd tags).flags.lookup "region" =
        some (FlagVal.str (GetRegionFromZone zone)) ∧
      (d.createCmd tags).flags.lookup "replica-zones" =
        some (FlagVal.str (joinWith "," rz)))
    ∧ (d.deleteCmd.flags.lookup "zone" = none ∧
        d.deleteCmd.flags.lookup "region" =
          some (FlagVal.str (GetRegionFromZone zone)))
    ∧ (d.describeCmd.flags.lookup "zone" = none ∧
        d.describeCmd.flags.lookup "region" =
          some (FlagVal.str (GetRegionFromZone zone)))
    ∧ (d.attachCmd.flags.lookup "zone" = some (FlagVal.str zone) ∧
        d.attachCmd.flags.lookup "region" = none ∧
        d.attachCmd.flags.lookup "disk-scope" =
          some (FlagVal.str REGIONAL_DISK_SCOPE))
    ∧ (d.detachCmd.flags.lookup "zone" = some (FlagVal.str zone) ∧
        d.detachCmd.flags.lookup "region" = none ∧
        d.detachCmd.flags.lookup "disk-scope" =
          some (FlagVal.str REGIONAL_DISK_SCOPE)) := by
  obtain ⟨_, _, _, _, hzone, _, hrzf, hreg, _, _, _⟩ :=
    initDisk_fields FLAGS table dt sz name zone project image image_project
      rz d t' h
  have hrzd : d.replica_zones ≠ [] := by rw [hrzf]; exact hrz
  refine ⟨?_, ?_, ?_, ?_, ?_⟩
  · have hc := createCmd_flags_regional d tags hrzd
    rw [hreg, hrzf] at hc
    exact hc
  · have hc := deleteCmd_flags_regional d hrzd
    rw [hreg] at hc
    exact hc
  · have hc := describeCmd_flags_regional d hrzd
    rw [hreg] at hc
    exact hc
  · have hc := attachCmd_flags_regional d hrzd
    rw [hzone] at hc
    exact hc
  · have hc := detachCmd_flags_regional d hrzd
    rw [hzone] at hc
    exact hc

/-- The disk produced by constructing a concrete regional pd-ssd disk. -/
def dRegEx : GceDisk :=
  match initDisk FLAGS0 DISK_METADATA PD_SSD 500 "dA" "us-central1-a" "proj"
      none none ["us-central1-a", "us-central1-b"] with
  | some (d, _) => d
  | none => diskEx

/-- The global table state that same construction leaves behind. -/
def tRegEx : List (String × List (String × String)) :=
  match initDisk FLAGS0 DISK_METADATA PD_SSD 500 "dA" "us-central1-a" "proj"
      none none ["us-central1-a", "us-central1-b"] with
  | some (_, t) => t
  | none => []

/-- Witness for the amended C2 at a concrete regional disk. -/
theorem gce_C2_regional_flags_witness :
    (dRegEx.createCmd "t").flags.lookup "zone" = none ∧
    (dRegEx.createCmd "t").flags.lookup "region" =
      some (FlagVal.str (GetRegionFromZone "us-central1-a")) ∧
    dRegEx.attachCmd.flags.lookup "disk-scope" =
      some (FlagVal.str REGIONAL_DISK_SCOPE) :=
  ⟨(gce_C2_regional_flags FLAGS0 DISK_METADATA PD_SSD 500 "dA" "us-central1-a"
      "proj" none none ["us-central1-a", "us-central1-b"] dRegEx tRegEx
      (by decide) (by decide) "t").1.1,
   (gce_C2_regional_flags FLAGS0 DISK_METADATA PD_SSD 500 "dA" "us-central1-a"
      "proj" none none ["us-central1-a", "us-central1-b"] dRegEx tRegEx
      (by decide) (by decide) "t").1.2.1,
   (gce_C2_regional_flags FLAGS0 DISK_METADATA PD_SSD 500 "dA" "us-central1-a"
      "proj" none none ["us-central1-a", "us-central1-b"] dRegEx tRegEx
      (by decide) (by decide) "t").2.2.2.1.2.2⟩

/-- The provisioned-iops flag of the create command, for any disk: present
(with the stored value) exactly when `provisioned_iops` is truthy and the
concrete type is pd-extreme. -/
theorem createCmd_iops_flag (d : GceDisk) (tags : String) :
    (d.createCmd tags).flags.lookup "provisioned-iops" =
      (if intTruthy d.provisioned_iops && (d.disk_type == PD_EXTREME) then
        some (FlagVal.num (d.provisioned_iops.getD 0)) else none) := by
  unfold GceDisk.createCmd GceDisk.gcloudCommand GcloudCommandFlags Cmd.setFlag
    Cmd.delFlag
  rcases him : d.image with _ | img <;> rcases hip : d.image_project with _ | ip <;>
    by_cases hb : (intTruthy d.provisioned_iops && (d.disk_type == PD_EXTREME)) = true <;>
    by_cases hrz : d.replica_zones = [] <;>
    simp [him, hip, hb, hrz, assocSet, assocDel, List.lookup]

/-- A configuration whose global IOPS target is 0. -/
def FLAGSZeroIops : GlobalFlags :=
  { gcp_provisioned_iops := 0, gce_ssd_interface := "SCSI",
    retry_on_rate_limited := true }

/-- Counterexample to C6 as stated: with a configured global IOPS value of 0
(not positive), a pd-extreme disk still gets a non-null `provisioned_iops`
(namely 0), yet its create command carries no provisioned-iops flag — so
"non-null iff pd-extreme and positive IOPS" fails, and so does "flag included
exactly when `provisioned_iops` is set". -/
theorem gce_C6_counterexample :
    ((initDisk FLAGSZeroIops DISK_METADATA PD_EXTREME 500 "dE" "us-central1-a"
        "proj" none none []).map (fun p => p.1.provisioned_iops)
      = some (some 0))
    ∧ ¬(0 < FLAGSZeroIops.gcp_provisioned_iops)
    ∧ ((initDisk FLAGSZeroIops DISK_METADATA PD_EXTREME 500 "dE"
        "us-central1-a" "proj" none none []).map
        (fun p => (p.1.createCmd "tags").flags.lookup "provisioned-iops")
      = some none) := by
  refine ⟨by decide, by decide, by decide⟩

/-- C6 (amended): for every constructed disk, `provisioned_iops` is non-null
iff the concrete type equals pd-extreme, in which case it equals the
configured global IOPS value; and the create command includes the
provisioned-iops flag (with that value) exactly when `provisioned_iops` is
non-null and nonzero. -/
theorem gce_C6_provisioned_iops (FLAGS : GlobalFlags)
    (table : List (String × List (String × String))) (dt : String) (sz : Nat)
    (name zone project : String) (image image_project : Option String)
    (rz : List String) (d : GceDisk)
    (t' : List (String × List (String × String)))
    (h : initDisk FLAGS table dt sz name zone project image image_project rz
      = some (d, t')) (tags : String) :
    (d.provisioned_iops.isSome ↔ d.disk_type = PD_EXTREME)
    ∧ (d.disk_type = PD_EXTREME →
        d.provisioned_iops = some FLAGS.gcp_provisioned_iops)
    ∧ (((d.createCmd tags).flags.lookup "provisioned-iops").isSome ↔
        (d.provisioned_iops.isSome ∧ d.provisioned_iops ≠ some 0))
    ∧ (d.provisioned_iops.isSome → d.provisioned_iops ≠ some 0 →
        (d.createCmd tags).flags.lookup "provisioned-iops" =
          some (FlagVal.num FLAGS.gcp_provisioned_iops)) := by
  obtain ⟨hdt, _, _, _, _, _, _, _, _, _, hpi⟩ :=
    initDisk_fields FLAGS table dt sz name zone project image image_project
      rz d t' h
  have hflag := createCmd_iops_flag d tags
  by_cases hext : dt = PD_EXTREME
  · have hbe : (dt == PD_EXTREME) = true := by simp [hext]
    rw [hbe, if_pos rfl] at hpi
    have hbd : (d.disk_type == PD_EXTREME) = true := by simp [hdt, hext]
    rw [hbd, Bool.and_true] at hflag
    by_cases hz : FLAGS.gcp_provisioned_iops = 0
    · have htr : intTruthy d.provisioned_iops = false := by
        rw [hpi, hz]; rfl
      rw [htr] at hflag
      simp only [if_false, Bool.false_eq_true] at hflag
      refine ⟨?_, ?_, ?_, ?_⟩
      · simp [hpi, hdt, hext]
      · intro _; exact hpi
      · simp [hflag, hpi, hz]
      · intro _ hne; exact absurd (by rw [hpi, hz]) hne
    · have htr : intTruthy d.provisioned_iops = true := by
        rw [hpi]; unfold intTruthy; simp [hz]
      rw [htr] at hflag
      simp only [if_true] at hflag
      refine ⟨?_, ?_, ?_, ?_⟩
      · simp [hpi, hdt, hext]
      · intro _; exact hpi
      · simp [hflag, hpi, hz]
      · intro _ _; rw [hflag, hpi]; rfl
  · have hbe : (dt == PD_EXTREME) = false := by simp [hext]
    rw [hbe] at hpi
    simp only [Bool.false_eq_true, if_false] at hpi
    have htr : intTruthy d.provisioned_iops = false := by rw [hpi]; rfl
    rw [htr, Bool.false_and] at hflag
    simp only [Bool.false_eq_true, if_false] at hflag
    refine ⟨?_, ?_, ?_, ?_⟩
    · simp [hpi, hdt, hext]
    · intro hc; exact absurd (hdt ▸ hc) hext
    · simp [hflag, hpi]
    · intro hs _; rw [hpi] at hs; exact absurd hs (by simp)

/-- The disk produced by constructing a concrete pd-extreme disk under the
default configuration. -/
def dExtremeEx : GceDisk :=
  match initDisk FLAGS0 DISK_METADATA PD_EXTREME 500 "dE" "us-central1-a"
      "proj" none none [] with
  | some (d, _) => d
  | none => diskEx

/-- The table that same construction leaves behind (unchanged: no replica
zones). -/
def tExtremeEx : List (String × List (String × String)) :=
  match initDisk FLAGS0 DISK_METADATA PD_EXTREME 500 "dE" "us-central1-a"
      "proj" none none [] with
  | some (_, t) => t
  | none => []

/-- Witness for the amended C6 at a concrete pd-extreme disk with the default
(nonzero) IOPS target. -/
theorem gce_C6_provisioned_iops_witness :
    dExtremeEx.provisioned_iops = some 100000
    ∧ (dExtremeEx.createCmd "t").flags.lookup "provisioned-iops" =
        some (FlagVal.num 100000) :=
  ⟨(gce_C6_provisioned_iops FLAGS0 DISK_METADATA PD_EXTREME 500 "dE"
      "us-central1-a" "proj" none none [] dExtremeEx tExtremeEx (by decide)
      "t").2.1 (by decide),
   (gce_C6_provisioned_iops FLAGS0 DISK_METADATA PD_EXTREME 500 "dE"
      "us-central1-a" "proj" none none [] dExtremeEx tExtremeEx (by decide)
      "t").2.2.2 (by decide) (by decide)⟩

/-- The post-state of one `Attach` invocation, in every outcome. -/
theorem Attach_fst (FLAGS : GlobalFlags) (d : GceDisk) (vm : String)
    (res : CmdResult) :
    (GceDisk.Attach FLAGS d vm res).1 =
      { d with attached_vm_name := some vm } := by
  unfold GceDisk.Attach
  by_cases h0 : res.retcode ≠ 0
  · by_cases hb : (res.rate_limited &&
        strContains res.stderr "is already being used" &&
        FLAGS.retry_on_rate_limited) = true
    · simp [h0, hb]
    · rw [Bool.not_eq_true] at hb
      simp [h0, hb]
  · simp [h0]

/-- `runOps` ends in exactly the attachment state `expectedAttached`
computes: every Attach invocation (successful or not) records its target, a
completed Detach clears it, `_Create` and `_Delete` leave it alone. -/
theorem runOps_attached (FLAGS : GlobalFlags) (ops : List LifeOp) :
    ∀ d : GceDisk, (runOps FLAGS d ops).attached_vm_name =
      expectedAttached d.attached_vm_name ops := by
  induction ops with
  | nil => intro d; rfl
  | cons op rest ih =>
    intro d
    cases op with
    | createOp res => exact ih d
    | deleteOp res => exact ih d
    | attachOp vm res =>
      show (runOps FLAGS ((GceDisk.Attach FLAGS d vm res).1) rest).attached_vm_name
        = expectedAttached (some vm) rest
      rw [Attach_fst, ih]
    | detachOp outcome =>
      cases outcome with
      | ok u =>
        cases u
        show (runOps FLAGS ({ d with attached_vm_name := none }) rest).attached_vm_name
          = expectedAttached none rest
        rw [ih]
      | error e =>
        show (runOps FLAGS d rest).attached_vm_name
          = expectedAttached d.attached_vm_name rest
        exact ih d

/-- Counterexample to C8 as stated: starting from a freshly constructed
disk, a successful Attach followed by a completed Delete leaves
`attached_vm_name` still set to the VM name — `_Delete` never clears it, so
"a completed Detach or Delete leaves it null" fails. -/
theorem gce_C8_counterexample :
    ((initDisk FLAGS0 DISK_METADATA PD_STANDARD 500 "d1" "us-central1-a"
        "proj" none none []).map (fun p =>
      (runOps FLAGS0 p.1
        [LifeOp.attachOp "vm1" resOK, LifeOp.deleteOp resOK]).attached_vm_name))
    = some (some "vm1")
    ∧ (some (some "vm1") : Option (Option String)) ≠ some none := by
  refine ⟨by decide, by decide⟩

/-- C8 (amended): a constructed disk starts with `attached_vm_name` null,
and over every sequence of lifecycle operations the field equals the target
of the most recent Attach invocation (set even when Attach raises), cleared
only by a completed Detach; `_Delete` leaves it unchanged.  Stated via
`expectedAttached`, the fold realising exactly that description. -/
theorem gce_C8_attachment_state (FLAGS : GlobalFlags)
    (table : List (String × List (String × String))) (dt : String) (sz : Nat)
    (name zone project : String) (image image_project : Option String)
    (rz : List String) (d : GceDisk)
    (t' : List (String × List (String × String)))
    (h : initDisk FLAGS table dt sz name zone project image image_project rz
      = some (d, t')) (ops : List LifeOp) :
    d.attached_vm_name = none
    ∧ (runOps FLAGS d ops).attached_vm_name = expectedAttached none ops := by
  obtain ⟨_, _, hav, _, _, _, _, _, _, _, _⟩ :=
    initDisk_fields FLAGS table dt sz name zone project image image_project
      rz d t' h
  refine ⟨hav, ?_⟩
  rw [runOps_attached, hav]

/-- The disk produced by constructing a concrete zonal standard disk. -/
def diskEx2 : GceDisk :=
  match initDisk FLAGS0 DISK_METADATA PD_STANDARD 500 "d1" "us-central1-a"
      "proj" none none [] with
  | some (d, _) => d
  | none => diskEx

/-- The table that same construction leaves behind. -/
def tEx2 : List (String × List (String × String)) :=
  match initDisk FLAGS0 DISK_METADATA PD_STANDARD 500 "d1" "us-central1-a"
      "proj" none none [] with
  | some (_, t) => t
  | none => []

/-- Witness for the amended C8: a concrete construction followed by an
attach and a successful detach ends unattached. -/
theorem gce_C8_attachment_state_witness :
    diskEx2.attached_vm_name = none
    ∧ (runOps FLAGS0 diskEx2
        [LifeOp.attachOp "vm1" resOK,
         LifeOp.detachOp (Except.ok ())]).attached_vm_name = none :=
  ⟨(gce_C8_attachment_state FLAGS0 DISK_METADATA PD_STANDARD 500 "d1"
      "us-central1-a" "proj" none none [] diskEx2 tEx2 (by decide)
      [LifeOp.attachOp "vm1" resOK, LifeOp.detachOp (Except.ok ())]).1,
   (gce_C8_attachment_state FLAGS0 DISK_METADATA PD_STANDARD 500 "d1"
      "us-central1-a" "proj" none none [] diskEx2 tEx2 (by decide)
      [LifeOp.attachOp "vm1" resOK, LifeOp.detachOp (Except.ok ())]).2⟩

/-- Two-run interference experiment: the `replication` metadata entry of a
zonal pd-ssd disk B constructed after a regional pd-ssd disk A was
constructed in the same process (disk A's construction assigns through the
alias `disk_metadata = DISK_METADATA[disk_type]`, mutating the shared
table). -/
def diskBAfterA : Option (Option MetaVal) :=
  match initDisk FLAGS0 DISK_METADATA PD_SSD 500 "dA" "us-central1-a" "proj"
      none none ["us-central1-a", "us-central1-b"] with
  | some (_, t1) =>
    (initDisk FLAGS0 t1 PD_SSD 500 "dB" "us-east1-b" "proj" none none []).map
      (fun p => p.1.metadata.lookup disk.REPLICATION)
  | none => none

/-- The same `replication` metadata entry of disk B constructed alone,
against the pristine table. -/
def diskBAlone : Option (Option MetaVal) :=
  (initDisk FLAGS0 DISK_METADATA PD_SSD 500 "dB" "us-east1-b" "proj"
    none none []).map (fun p => p.1.metadata.lookup disk.REPLICATION)

/-- C9 fails on the code: constructing a regional disk A first changes the
metadata a later zonal disk B of the same concrete type receives — B reports
`replication = region` although it has no replica zones — because the
constructor writes through an alias into the shared `DISK_METADATA` table.
This contradicts the spec's "no core-internal shared mutable state exists
across instances" and is a slip in the code (the spec's intent), so the
claim is classified as a code bug, with this theorem evaluating the model at
the failing input. -/
theorem gce_C9_shared_table_mutation :
    diskBAfterA = some (some (MetaVal.str disk.REGION))
    ∧ diskBAlone = some (some (MetaVal.str disk.ZONE))
    ∧ diskBAfterA ≠ diskBAlone := by
  refine ⟨by decide, by decide, by decide⟩
